import Mathlib

/-!
Verification of the cloud-ingest web console backend and agent autoupdate
script, shallowly embedded from the Python sources
(webconsole/backend/spannerwrapper.py, webconsole/backend/gaxerrordecorator.py,
autoupdate/autoupdate.py, create-infra/job_utilities.py).
-/

/-! ## Task status and job status constants (create-infra/job_utilities.py,
mirrored by the generated proto enum proto.tasks_pb2.TaskStatus used in
spannerwrapper.py). -/

def TASK_STATUS_UNQUEUED : Nat := 0

def TASK_STATUS_QUEUED : Nat := 1

def TASK_STATUS_FAILED : Nat := 2

def TASK_STATUS_SUCCESS : Nat := 3

def JOB_STATUS_IN_PROGRESS : Nat := 1

/-! ## Spanner table and column name constants (class SpannerWrapper). -/

def JOB_CONFIGS_TABLE : String := "JobConfigs"

def TASKS_TABLE : String := "Tasks"

def JOB_CONFIG_ID : String := "JobConfigId"

def STATUS : String := "Status"

/-! ## Data model: rows of the JobConfigs and Tasks tables. -/

/-- A row of the JobConfigs table: primary key JobConfigId, plus JobSpec. -/
structure JobConfigRow where
  jobConfigId : String
  jobSpec : String
deriving DecidableEq, Repr

/-- A row of the Tasks table, restricted to the columns read by the
tasks-in-progress query: JobConfigId and Status (plus identifying columns). -/
structure TaskRow where
  jobConfigId : String
  jobRunId : String
  taskId : String
  status : Nat
deriving DecidableEq, Repr

/-- The database state visible to the delete-job-configs transaction. -/
structure Database where
  jobConfigs : List JobConfigRow
  tasks : List TaskRow
deriving DecidableEq, Repr

/-- A mutation buffered inside a Spanner transaction. The delete mutation
carries the table name and the keyset keys, each key a list of key column
values (spanner.KeySet(keys=keyset_keys)). -/
inductive Mutation where
  | delete (table : String) (keys : List (List String))
deriving DecidableEq, Repr

/-- Committing a delete mutation removes from JobConfigs every row whose
primary key (JobConfigId) is listed in the keyset. -/
def applyMutation (db : Database) : Mutation → Database
  | Mutation.delete table keys =>
    if table == JOB_CONFIGS_TABLE then
      { db with jobConfigs :=
          db.jobConfigs.filter fun row => !(keys.contains [row.jobConfigId]) }
    else db

/-! ## The tasks-in-progress query (spannerwrapper.py lines 89-168). -/

/-- Embeds `_get_tasks_in_progress_query(config_id, params, param_types,
counter)`. The Python function returns the subquery string and inserts the
key `config_<counter>` with value `config_id` into params and with the STRING
type into param_types; here the two insertions are returned as pairs. -/
def get_tasks_in_progress_query (config_id : String) (counter : Nat) :
    String × (String × String) × String :=
  let config_id_param := "@config_" ++ toString counter
  let config_id_key := "config_" ++ toString counter
  let query := "SELECT COUNT(*) AS tasks_in_progress_count FROM " ++
    TASKS_TABLE ++ " WHERE " ++ JOB_CONFIG_ID ++ " = " ++ config_id_param ++
    " AND  (" ++ STATUS ++ " = " ++ toString TASK_STATUS_QUEUED ++ " OR " ++
    STATUS ++ " = " ++ toString TASK_STATUS_UNQUEUED ++ ")"
  (query, (config_id_key, config_id), config_id_key)

/-- Loop body of `_get_all_tasks_in_progress`: iterates over the config ids
with their indices, appending each subquery, and appending the separator
(backslash-n UNION ALL backslash-n) exactly when `i < len(config_id_list)-1`,
that is, when more ids remain. Params and param_types are accumulated in
insertion order (param_types records the keys, every value being the STRING
type). -/
def get_all_tasks_in_progress_go :
    Nat → List String → String × List (String × String) × List String
  | _, [] => ("", [], [])
  | i, config_id :: rest =>
    let (q, p, pt) := get_tasks_in_progress_query config_id i
    let sep := if rest.isEmpty then "" else "\nUNION ALL\n"
    let (qs, ps, pts) := get_all_tasks_in_progress_go (i + 1) rest
    (q ++ sep ++ qs, p :: ps, pt :: pts)

/-- Embeds `_get_all_tasks_in_progress(config_id_list)`: returns the UNION ALL
query string, the params dictionary (as an association list in insertion
order) and the param_types keys (each mapped to the STRING type). -/
def get_all_tasks_in_progress (config_id_list : List String) :
    String × List (String × String) × List String :=
  get_all_tasks_in_progress_go 0 config_id_list

/-- Spec-side description of the query shape: subqueries joined by
UNION ALL (each separator is the three-line sequence newline, UNION ALL,
newline, exactly as the Python code inserts it). -/
def union_all_join : List String → String
  | [] => ""
  | [q] => q
  | q :: r :: rest => q ++ "\nUNION ALL\n" ++ union_all_join (r :: rest)

/-! ## Query semantics. -/

/-- The count computed by one subquery of the UNION ALL query: the number of
Tasks rows whose JobConfigId equals the bound config id parameter and whose
Status is QUEUED or UNQUEUED. -/
def tasksInProgressCount (db : Database) (config_id : String) : Int :=
  ((db.tasks.filter fun t =>
      t.jobConfigId == config_id &&
      (t.status == TASK_STATUS_QUEUED || t.status == TASK_STATUS_UNQUEUED)
    ).length : Int)

/-- Spanner evaluation of the query built by `get_all_tasks_in_progress`:
each of the UNION ALL subqueries contributes exactly one row holding the
single column tasks_in_progress_count, in subquery order; a row is modelled
by that count. -/
def run_tasks_in_progress_query (db : Database) (config_id_list : List String) :
    List Int :=
  config_id_list.map (tasksInProgressCount db)

/-! ## Partitioning the config ids (spannerwrapper.py lines 75-87). -/

/-- Loop of `_get_delible_indelible_configs`: `for i, row in enumerate(rows)`,
reading `tasks_count = row[0]` (the single column of the row) and
`config_id_list[i]`. The Python indexing raises IndexError when rows has more
elements than config_id_list; the embedding totalises that case with a
default, and is only ever applied with `rows.length ≤ config_id_list.length`
as in the source, where rows comes from the query over config_id_list. -/
def get_delible_indelible_configs_go (config_id_list : List String) :
    Nat → List Int → List String × List String
  | _, [] => ([], [])
  | i, tasks_count :: rest =>
    let (d, ind) := get_delible_indelible_configs_go config_id_list (i + 1) rest
    if tasks_count > 0 then (d, config_id_list.getD i "" :: ind)
    else (config_id_list.getD i "" :: d, ind)

/-- Embeds `_get_delible_indelible_configs(config_id_list, rows)`: returns the
pair (delible_configs, indelible_configs). -/
def get_delible_indelible_configs (config_id_list : List String)
    (rows : List Int) : List String × List String :=
  get_delible_indelible_configs_go config_id_list 0 rows

/-! ## The delete transaction (spannerwrapper.py lines 110-139, 578-597). -/

/-- The transaction_read_result dictionary: it always carries both keys,
delible_configs and indelible_configs. -/
structure TransactionReadResult where
  delible_configs : List String
  indelible_configs : List String
deriving DecidableEq, Repr

/-- Embeds `_delete_job_configs_transaction(transaction, config_id_list,
transaction_read_result)`: runs the UNION ALL query, partitions the config
ids, stores the partition in the read result, and, when delible_configs is
non-empty, buffers a single delete of the JobConfigs table with keyset keys
`[[config_id] for config_id in delible_configs]`. Returns the read result and
the buffered mutations. -/
def delete_job_configs_transaction (db : Database)
    (config_id_list : List String) : TransactionReadResult × List Mutation :=
  let rows := run_tasks_in_progress_query db config_id_list
  let (delible_configs, indelible_configs) :=
    get_delible_indelible_configs config_id_list rows
  let mutations :=
    if delible_configs.isEmpty then ([] : List Mutation)
    else [Mutation.delete JOB_CONFIGS_TABLE
            (delible_configs.map fun config_id => [config_id])]
  (⟨delible_configs, indelible_configs⟩, mutations)

/-- Embeds `database.run_in_transaction(_delete_job_configs_transaction,
config_id_list, transaction_read_result)`: runs the transaction function and
commits its buffered mutations. Per the source comments, committing with no
mutations raises ValueError (there was nothing to commit); the read result
dictionary is mutated in place by the transaction function and so is
available to the caller even then. -/
def run_delete_job_configs_in_transaction (db : Database)
    (config_id_list : List String) :
    Except String Database × TransactionReadResult :=
  let (transaction_read_result, mutations) :=
    delete_job_configs_transaction db config_id_list
  if mutations.isEmpty then (Except.error "ValueError", transaction_read_result)
  else (Except.ok (mutations.foldl applyMutation db), transaction_read_result)

/-- Embeds `SpannerWrapper.delete_job_configs(config_id_list)`: runs the
transaction, catching exactly ValueError (`except ValueError: pass`), and
returns the read result dictionary; any other exception would propagate. -/
def delete_job_configs (db : Database) (config_id_list : List String) :
    Except String (Database × TransactionReadResult) :=
  match run_delete_job_configs_in_transaction db config_id_list with
  | (Except.ok db2, transaction_read_result) =>
    Except.ok (db2, transaction_read_result)
  | (Except.error e, transaction_read_result) =>
    if e == "ValueError" then Except.ok (db, transaction_read_result)
    else Except.error e

/-! ## Job run creation (spannerwrapper.py lines 294-339). -/

/-- The Counters JSON object inserted with a new job run; field names match
the dictionary keys in `create_job_run`. -/
structure Counters where
  totalTasks : Int
  tasksCompleted : Int
  tasksFailed : Int
  tasksQueued : Int
  tasksUnqueued : Int
  totalTasksList : Int
  tasksCompletedList : Int
  tasksFailedList : Int
  tasksQueuedList : Int
  tasksUnqueuedList : Int
  totalTasksCopy : Int
  tasksCompletedCopy : Int
  tasksFailedCopy : Int
  tasksQueuedCopy : Int
  tasksUnqueuedCopy : Int
deriving DecidableEq, Repr

/-- The counters dictionary built by `create_job_run(config_id, run_id,
initial_total_tasks)` before it is serialised with json.dumps. -/
def create_job_run_counters (initial_total_tasks : Int) : Counters :=
  { totalTasks := initial_total_tasks
    tasksCompleted := 0
    tasksFailed := 0
    tasksQueued := 0
    tasksUnqueued := initial_total_tasks
    totalTasksList := initial_total_tasks
    tasksCompletedList := 0
    tasksFailedList := 0
    tasksQueuedList := 0
    tasksUnqueuedList := initial_total_tasks
    totalTasksCopy := 0
    tasksCompletedCopy := 0
    tasksFailedCopy := 0
    tasksQueuedCopy := 0
    tasksUnqueuedCopy := 0 }

/-- A row of the JobRuns table, matching JOB_RUNS_COLUMNS = [JobConfigId,
JobRunId, Status, JobCreationTime, Counters]. -/
structure JobRunRow where
  jobConfigId : String
  jobRunId : String
  status : Nat
  jobCreationTime : Int
  counters : Counters
deriving DecidableEq, Repr

/-- Embeds the values list inserted by `create_job_run`: [config_id, run_id,
JOB_STATUS_IN_PROGRESS, self._get_unix_nano(), json.dumps(counters)]. The
insertion timestamp is passed in as `creation_time`. -/
def create_job_run_row (config_id run_id : String) (creation_time : Int)
    (initial_total_tasks : Int) : JobRunRow :=
  { jobConfigId := config_id
    jobRunId := run_id
    status := JOB_STATUS_IN_PROGRESS
    jobCreationTime := creation_time
    counters := create_job_run_counters initial_total_tasks }

/-! ## GaxError handling (webconsole/backend/gaxerrordecorator.py). -/

/-- The grpc status codes (grpc.StatusCode). -/
inductive StatusCode where
  | ok
  | cancelled
  | unknown
  | invalid_argument
  | deadline_exceeded
  | not_found
  | already_exists
  | permission_denied
  | resource_exhausted
  | failed_precondition
  | aborted
  | out_of_range
  | unimplemented
  | internal
  | unavailable
  | data_loss
  | unauthenticated
deriving DecidableEq, Repr

/-- The exceptions a wrapped SpannerWrapper method can raise after the
decorator runs: the four translated google.cloud exceptions with their
messages, or the original GaxError (identified by its status code) when the
decorator re-raises it. -/
inductive CloudError where
  | forbidden (msg : String)
  | notFound (msg : String)
  | unauthorized (msg : String)
  | conflict (msg : String)
  | gaxError (code : StatusCode)
deriving DecidableEq, Repr

/-- The self.project_id, self.instance_id and self.database_id fields the
decorator reads to build its messages. -/
structure SpannerIds where
  project_id : String
  instance_id : String
  database_id : String
deriving DecidableEq, Repr

/-- The Forbidden message format string of the decorator, with %s holes
filled in (\x27 is the single-quote character of the format string). -/
def forbidden_message (ids : SpannerIds) : String :=
  "You do not have the proper permissions to access (Project: \x27" ++
  ids.project_id ++ "\x27, Spanner Instance: \x27" ++ ids.instance_id ++
  "\x27, Spanner Database: \x27" ++ ids.database_id ++ "\x27)."

/-- The NotFound message format string of the decorator. -/
def not_found_message (ids : SpannerIds) : String :=
  "The requested resource could not be found: (Project: \x27" ++
  ids.project_id ++ "\x27, Spanner Instance: \x27" ++ ids.instance_id ++
  "\x27, Spanner Database: \x27" ++ ids.database_id ++ "\x27)."

/-- The Unauthorized message of the decorator. -/
def unauthorized_message : String :=
  "You are not authenticated. Please ensure your credentials are valid"

/-- The Conflict message of the decorator. -/
def conflict_message : String := "This resource already exist"

/-- Embeds `handle_common_gax_errors(function)` applied to one call: the call
either returns a value or raises a GaxError whose cause maps to a status
code (config.exc_to_code). The decorator returns the value unchanged, or
translates the status code through its if/elif chain, re-raising the original
GaxError for any other status code. -/
def handle_common_gax_errors {α : Type} (ids : SpannerIds)
    (call : Except StatusCode α) : Except CloudError α :=
  match call with
  | Except.ok v => Except.ok v
  | Except.error status_code =>
    if status_code = StatusCode.permission_denied then
      Except.error (CloudError.forbidden (forbidden_message ids))
    else if status_code = StatusCode.not_found then
      Except.error (CloudError.notFound (not_found_message ids))
    else if status_code = StatusCode.unauthenticated then
      Except.error (CloudError.unauthorized unauthorized_message)
    else if status_code = StatusCode.already_exists then
      Except.error (CloudError.conflict conflict_message)
    else
      Except.error (CloudError.gaxError status_code)

/-! ## Autoupdate script (autoupdate/autoupdate.py). -/

def STABLE_AGENT_BINARY_ADDRESS : String :=
  "https://www.googleapis.com/storage/v1/b/cloud-ingest-pub/o/agent%2fcurrent%2fagent-linux_amd64.tar.gz"

def POSTFIX : String := "?alt=media"

/-- A decoded JSON value as json.loads yields it: a string, an object, or
some other value. -/
inductive PyObject where
  | str (s : String)
  | dict (entries : List (String × PyObject))
  | other

/-- The Python exceptions relevant to subscripting a decoded JSON value. -/
inductive PyErr where
  | keyError
  | typeError
deriving DecidableEq, Repr

/-- Python subscripting `v[key]`: on a dict, looks the key up and raises
KeyError when absent; on any non-dict value it raises TypeError. -/
def getitem (v : PyObject) (key : String) : Except PyErr PyObject :=
  match v with
  | PyObject.dict entries =>
    match entries.lookup key with
    | some w => Except.ok w
    | none => Except.error PyErr.keyError
  | _ => Except.error PyErr.typeError

/-- The outcome of `urllib.urlopen(url).read()` followed by json.loads:
the fetch raises IOError, or json.loads raises ValueError on a malformed
body, or a decoded JSON value is produced. -/
inductive FetchOutcome where
  | ioError
  | badJson
  | json (v : PyObject)

/-- Embeds `agent_release_version(url)`: inside the try block it computes
`json.loads(urllib.urlopen(url).read())` subscripted at metadata and then at
AgentVersion and returns that value; the except clauses catch IOError and
(ValueError, KeyError), falling off the end of the function (returning None).
A TypeError from subscripting a non-dict is not caught and propagates
(modelled as Except.error). -/
def agent_release_version (fetch : String → FetchOutcome) (url : String) :
    Except PyErr (Option PyObject) :=
  match fetch url with
  | FetchOutcome.ioError => Except.ok none
  | FetchOutcome.badJson => Except.ok none
  | FetchOutcome.json v =>
    match getitem v "metadata" with
    | Except.error PyErr.keyError => Except.ok none
    | Except.error e => Except.error e
    | Except.ok m =>
      match getitem m "AgentVersion" with
      | Except.error PyErr.keyError => Except.ok none
      | Except.error e => Except.error e
      | Except.ok version => Except.ok (some version)

/-- A running agent process handle (subprocess.Popen object): its pid and
the result its `poll()` method currently returns (None while the process is
alive, an exit code once it has terminated). -/
structure AgentProcess where
  pid : Nat
  pollResult : Option Int
deriving DecidableEq, Repr

/-- Embeds `is_process_alive(process)`: False for None, then True exactly
when `process.poll()` returns None. -/
def is_process_alive (process : Option AgentProcess) : Bool :=
  match process with
  | none => false
  | some p =>
    match p.pollResult with
    | none => true
    | some _ => false

/-- The environment the autoupdate script runs in: the flag values, the log
directory returned by logging.find_log_dir(), and the outcomes of its IO
primitives (file reads, url fetches, binary downloads, process starts). -/
structure AutoupdateEnv where
  stable_agent_url : String
  log_dir : String
  readFile : String → Option String
  fetch : String → FetchOutcome
  urlretrieve : String → Bool
  popen : List String → Option AgentProcess

/-- Embeds `update_url(process)`: the stable URL when there is no running
process; otherwise read `find_log_dir() + agent_source_<pid>.txt`, returning
its contents, or the stable URL on IOError (readFile returning none). -/
def update_url (env : AutoupdateEnv) (process : Option AgentProcess) :
    String :=
  match process with
  | none => env.stable_agent_url
  | some p =>
    let filename :=
      env.log_dir ++ "agent_source_" ++ toString p.pid ++ ".txt"
    match env.readFile filename with
    | some contents => contents
    | none => env.stable_agent_url

/-- Embeds `download_and_start_agent(process, url, args)`: terminates a still
alive process (an effect with no bearing on the returned handle), retrieves
`url + POSTFIX` (an IOError, modelled by urlretrieve returning false, is
caught and the function returns None), extracts the archive (TarError is
caught inside extract_agent_binary), and starts `./agent` with the given
arguments (an OSError from Popen, modelled by popen returning none, is caught
and the function returns None). -/
def download_and_start_agent (env : AutoupdateEnv)
    (process : Option AgentProcess) (url : String) (args : List String) :
    Option AgentProcess :=
  let download_url := url ++ POSTFIX
  if env.urlretrieve download_url then env.popen ("./agent" :: args)
  else none

/-- Python `latest_prod_version != local_version` where the left side is a
decoded JSON value and the right side a string: strings compare by value,
any non-string differs from a string. -/
def pyNe (v : PyObject) (s : String) : Bool :=
  match v with
  | PyObject.str t => t != s
  | _ => true

/-- The version-check phase of `check_and_update_agent_if_needed`, given the
already computed update_source and latest_prod_version: when the fetched
version exists and differs from the local one, download and start the agent
from update_source; otherwise keep the process and set latest_prod_version to
local_version. Returns the process and latest_prod_version locals as they
stand after this phase. -/
def version_check_update (env : AutoupdateEnv)
    (process : Option AgentProcess) (local_version : String)
    (args : List String) (update_source : String)
    (latest_prod_version : Option PyObject) :
    Option AgentProcess × Option PyObject :=
  match latest_prod_version with
  | some v =>
    if pyNe v local_version then
      (download_and_start_agent env process update_source args, some v)
    else (process, some (PyObject.str local_version))
  | none => (process, some (PyObject.str local_version))

/-- The try block of `check_and_update_agent_if_needed`: version check, then,
if the process is not alive, re-read the version from the stable URL and
download and start the agent from the stable URL. An uncaught exception from
agent_release_version (TypeError) escapes to the outer handler carrying the
current value of the process local, which the handler returns. -/
def check_and_update_try (env : AutoupdateEnv)
    (process : Option AgentProcess) (local_version : String)
    (args : List String) :
    Except (Option AgentProcess) (Option AgentProcess × Option PyObject) :=
  let update_source := update_url env process
  match agent_release_version env.fetch update_source with
  | Except.error _ => Except.error process
  | Except.ok latest_prod_version =>
    let (process1, latest1) :=
      version_check_update env process local_version args update_source
        latest_prod_version
    if is_process_alive process1 then Except.ok (process1, latest1)
    else
      match agent_release_version env.fetch env.stable_agent_url with
      | Except.error _ => Except.error process1
      | Except.ok latest2 =>
        Except.ok
          (download_and_start_agent env process1 env.stable_agent_url args,
           latest2)

/-- Embeds `check_and_update_agent_if_needed(process, local_version, args)`:
the try block above, with the broad `except Exception` handler returning the
current process and the unchanged local_version. -/
def check_and_update_agent_if_needed (env : AutoupdateEnv)
    (process : Option AgentProcess) (local_version : String)
    (args : List String) : Option AgentProcess × Option PyObject :=
  match check_and_update_try env process local_version args with
  | Except.ok r => r
  | Except.error p => (p, some (PyObject.str local_version))

/-! ## Concrete fixtures used by witness theorems. -/

/-- A small database: two job configs, one queued task against config a. -/
def sampleDatabase : Database :=
  { jobConfigs := [{ jobConfigId := "a", jobSpec := "spec-a" },
                   { jobConfigId := "b", jobSpec := "spec-b" }]
    tasks := [{ jobConfigId := "a", jobRunId := "r", taskId := "t1",
                status := TASK_STATUS_QUEUED }] }

/-- An autoupdate environment in which every IO primitive fails. -/
def sampleAutoupdateEnv : AutoupdateEnv :=
  { stable_agent_url := STABLE_AGENT_BINARY_ADDRESS
    log_dir := "/var/log/"
    readFile := fun _ => none
    fetch := fun _ => FetchOutcome.ioError
    urlretrieve := fun _ => false
    popen := fun _ => none }

/-! # Theorems -/

/-! ## Partition lemmas for `_get_delible_indelible_configs`. -/

/-- The enumerate loop, started at index i over a suffix of the config list,
partitions the zipped (config id, count) pairs by the sign of the count,
keeping input order. -/
theorem get_delible_indelible_go_zip :
    ∀ (rows : List Int) (config_id_list rest : List String) (i : Nat),
    config_id_list.drop i = rest → rows.length ≤ rest.length →
    get_delible_indelible_configs_go config_id_list i rows =
      (((rest.zip rows).filter fun p => decide (p.2 ≤ 0)).map Prod.fst,
       ((rest.zip rows).filter fun p => decide (0 < p.2)).map Prod.fst)
  | [], _, _, _, _, _ => by simp [get_delible_indelible_configs_go]
  | _ :: _, _, [], _, _, hlen => by simp at hlen
  | r :: rs, cfgs, c :: rest2, i, hdrop, hlen => by
    have hget : cfgs.getD i "" = c := by
      have h1 : cfgs[i]? = some c := by
        rw [← List.head?_drop, hdrop]; rfl
      simp [List.getD, h1]
    have hdrop2 : cfgs.drop (i + 1) = rest2 := by
      have h2 : cfgs.drop (i + 1) = (cfgs.drop i).drop 1 :=
        (List.drop_drop 1 i cfgs).symm
      rw [h2, hdrop]; rfl
    have ih := get_delible_indelible_go_zip rs cfgs rest2 (i + 1) hdrop2
      (by simpa using hlen)
    simp only [get_delible_indelible_configs_go, ih, hget, List.zip_cons_cons,
      List.filter_cons]
    by_cases hr : (0 : Int) < r
    · have hnle : ¬ r ≤ 0 := by omega
      simp [hr, hnle]
    · have hle : r ≤ 0 := by omega
      simp [hr, hle]

/-- Partitioning the config ids against the counts computed pointwise by a
function yields the two filters of the config list. -/
theorem get_delible_indelible_map (cfgs : List String) (f : String → Int) :
    get_delible_indelible_configs cfgs (cfgs.map f) =
      ((cfgs.filter fun c => decide (f c ≤ 0)),
       (cfgs.filter fun c => decide (0 < f c))) := by
  have hzip : cfgs.zip (cfgs.map f) = cfgs.map fun c => (c, f c) := by
    induction cfgs with
    | nil => rfl
    | cons a t ih => simp [ih]
  have h := get_delible_indelible_go_zip (cfgs.map f) cfgs cfgs 0 rfl
    (by simp)
  rw [get_delible_indelible_configs, h, hzip, List.map_filter,
    List.map_filter, List.map_map, List.map_map]
  have hmap : ∀ p : String → Bool,
      List.map (Prod.fst ∘ fun c => (c, f c)) (cfgs.filter p) = cfgs.filter p := by
    intro p
    rw [show (Prod.fst ∘ fun c : String => (c, f c)) = id from rfl, List.map_id]
  simp only [Prod.mk.injEq]
  exact ⟨hmap _, hmap _⟩

/-- Full behaviour of `delete_job_configs`: it always succeeds, removes from
the JobConfigs table exactly the listed configs with a zero in-progress task
count, and returns the partition of the listed configs. -/
theorem delete_job_configs_eq (db : Database) (cfgs : List String) :
    delete_job_configs db cfgs = Except.ok
      ({ db with jobConfigs := db.jobConfigs.filter fun row =>
          !(cfgs.contains row.jobConfigId &&
            decide (tasksInProgressCount db row.jobConfigId = 0)) },
       { delible_configs :=
           cfgs.filter fun c => decide (tasksInProgressCount db c = 0),
         indelible_configs :=
           cfgs.filter fun c => decide (0 < tasksInProgressCount db c) }) := by
  have hnn : ∀ c : String, 0 ≤ tasksInProgressCount db c :=
    fun c => Int.natCast_nonneg _
  have hD : (cfgs.filter fun c => decide (tasksInProgressCount db c ≤ 0)) =
      cfgs.filter fun c => decide (tasksInProgressCount db c = 0) := by
    apply List.filter_congr'
    intro a _
    have h0 := hnn a
    rw [decide_eq_decide]
    omega
  have hpart : get_delible_indelible_configs cfgs
      (cfgs.map (tasksInProgressCount db)) =
      (cfgs.filter fun c => decide (tasksInProgressCount db c = 0),
       cfgs.filter fun c => decide (0 < tasksInProgressCount db c)) := by
    rw [get_delible_indelible_map, hD]
  have hpt : ∀ row : JobConfigRow,
      (!(((cfgs.filter fun c => decide (tasksInProgressCount db c = 0)).map
          fun c => [c]).contains [row.jobConfigId])) =
      !(cfgs.contains row.jobConfigId &&
        decide (tasksInProgressCount db row.jobConfigId = 0)) := by
    intro row
    congr 1
    rw [List.contains, List.contains, List.elem_eq_mem, List.elem_eq_mem,
      ← Bool.decide_and, decide_eq_decide]
    constructor
    · intro hmm
      rcases List.mem_map.mp hmm with ⟨c, hcD, hceq⟩
      have hcr : c = row.jobConfigId := by simpa using hceq
      subst hcr
      rcases List.mem_filter.mp hcD with ⟨hin, hdec⟩
      exact ⟨hin, of_decide_eq_true hdec⟩
    · rintro ⟨hin, h0⟩
      exact List.mem_map.mpr ⟨row.jobConfigId,
        List.mem_filter.mpr ⟨hin, decide_eq_true h0⟩, rfl⟩
  simp only [delete_job_configs, run_delete_job_configs_in_transaction,
    delete_job_configs_transaction, run_tasks_in_progress_query, hpart]
  cases hDe : cfgs.filter (fun c => decide (tasksInProgressCount db c = 0)) with
  | nil =>
    have hself : db.jobConfigs.filter (fun row =>
        !(cfgs.contains row.jobConfigId &&
          decide (tasksInProgressCount db row.jobConfigId = 0))) =
        db.jobConfigs := by
      apply List.filter_eq_self.mpr
      intro row _
      by_cases hc : row.jobConfigId ∈ cfgs
      · by_cases h0 : tasksInProgressCount db row.jobConfigId = 0
        · exfalso
          have hmemf : row.jobConfigId ∈ cfgs.filter
              (fun c => decide (tasksInProgressCount db c = 0)) :=
            List.mem_filter.mpr ⟨hc, decide_eq_true h0⟩
          rw [hDe] at hmemf
          simp at hmemf
        · simp [h0]
      · simp [List.elem_eq_mem, hc]
    rw [hself]
    rfl
  | cons d ds =>
    have hpt2 := hpt
    rw [hDe] at hpt2
    have hfe : db.jobConfigs.filter (fun row =>
        !(((d :: ds).map fun c => [c]).contains [row.jobConfigId])) =
        db.jobConfigs.filter (fun row =>
        !(cfgs.contains row.jobConfigId &&
          decide (tasksInProgressCount db row.jobConfigId = 0))) :=
      List.filter_congr' fun row _ => hpt2 row
    rw [← hfe]
    rfl

/-! ## Claim theorems for the delete-job-configs pipeline. -/

/-- C1: for every list of JobConfig identifiers, delete_job_configs deletes
exactly those configs whose count of Tasks with Status QUEUED or UNQUEUED is
zero, as observed within the single database transaction over the database
state db, and returns that set to the caller as delible_configs. -/
theorem delete_job_configs_deletes_exactly_idle (db : Database)
    (config_id_list : List String) :
    delete_job_configs db config_id_list = Except.ok
      ({ db with jobConfigs := db.jobConfigs.filter fun row =>
          !(config_id_list.contains row.jobConfigId &&
            decide (tasksInProgressCount db row.jobConfigId = 0)) },
       { delible_configs := config_id_list.filter fun c =>
           decide (tasksInProgressCount db c = 0),
         indelible_configs := config_id_list.filter fun c =>
           decide (0 < tasksInProgressCount db c) }) :=
  delete_job_configs_eq db config_id_list

/-- C2: a config in the list with more than zero Tasks in Status QUEUED or
UNQUEUED is never deleted by delete_job_configs (its JobConfigs rows are
unchanged by the transaction) and appears in the returned indelible_configs
list. -/
theorem delete_job_configs_preserves_busy (db : Database)
    (config_id_list : List String) (c : String)
    (hc : c ∈ config_id_list) (hbusy : 0 < tasksInProgressCount db c) :
    ∀ db2 rr, delete_job_configs db config_id_list = Except.ok (db2, rr) →
      c ∈ rr.indelible_configs ∧
      db2.jobConfigs.filter (fun row => row.jobConfigId == c) =
        db.jobConfigs.filter (fun row => row.jobConfigId == c) := by
  intro db2 rr h
  rw [delete_job_configs_eq] at h
  simp only [Except.ok.injEq, Prod.mk.injEq] at h
  obtain ⟨hdb, hrr⟩ := h
  subst hdb
  subst hrr
  constructor
  · exact List.mem_filter.mpr ⟨hc, decide_eq_true hbusy⟩
  · rw [List.filter_filter]
    apply List.filter_congr'
    intro row _
    by_cases hq : row.jobConfigId = c
    · have h0 : ¬ tasksInProgressCount db c = 0 := by omega
      simp [hq, h0]
    · simp [hq]

/-- C3: with one count row per config id, the partition is computed
independently per position, delible taking counts not above zero and
indelible the positive counts, both in input order; in particular ids a, b
with counts 2, 0 give delible b and indelible a. -/
theorem get_delible_indelible_partition (config_id_list : List String)
    (rows : List Int) (hlen : config_id_list.length = rows.length) :
    get_delible_indelible_configs config_id_list rows =
      (((config_id_list.zip rows).filter fun p => decide (p.2 ≤ 0)).map
         Prod.fst,
       ((config_id_list.zip rows).filter fun p => decide (0 < p.2)).map
         Prod.fst) ∧
    get_delible_indelible_configs ["a", "b"] [2, 0] = (["b"], ["a"]) := by
  constructor
  · exact get_delible_indelible_go_zip rows config_id_list config_id_list 0
      rfl (le_of_eq hlen.symm)
  · rfl

/-- Witness for C3 at a concrete input. -/
theorem get_delible_indelible_partition_witness :
    get_delible_indelible_configs ["x"] [1] =
      (((["x"].zip ([1] : List Int)).filter fun p => decide (p.2 ≤ 0)).map
         Prod.fst,
       ((["x"].zip ([1] : List Int)).filter fun p => decide (0 < p.2)).map
         Prod.fst) :=
  (get_delible_indelible_partition ["x"] [1] rfl).1

/-- C9: delete_job_configs never propagates the ValueError that an empty
commit raises; it always returns (Except.ok) a result dictionary with both
the delible_configs and indelible_configs keys, holding exactly the partition
computed during the read phase of the transaction. -/
theorem delete_job_configs_returns_partition (db : Database)
    (config_id_list : List String) :
    ∃ db2, delete_job_configs db config_id_list =
      Except.ok (db2, (delete_job_configs_transaction db config_id_list).1) := by
  rcases h : delete_job_configs_transaction db config_id_list with ⟨rr, muts⟩
  cases hm : muts.isEmpty
  · exact ⟨muts.foldl applyMutation db,
      by simp [delete_job_configs, run_delete_job_configs_in_transaction, h, hm]⟩
  · exact ⟨db,
      by simp [delete_job_configs, run_delete_job_configs_in_transaction, h, hm]⟩

/-- Witness for C2 at a concrete input: config a has one queued task, so it
survives the delete and is reported indelible. -/
theorem delete_job_configs_preserves_busy_witness :
    "a" ∈ (["a"] : List String) ∧ 0 < tasksInProgressCount sampleDatabase "a" ∧
    ("a" ∈ ({ delible_configs := [],
              indelible_configs := ["a"] } : TransactionReadResult).indelible_configs ∧
     sampleDatabase.jobConfigs.filter (fun row => row.jobConfigId == "a") =
       sampleDatabase.jobConfigs.filter (fun row => row.jobConfigId == "a")) := by
  refine ⟨by decide, by decide, ?_⟩
  exact delete_job_configs_preserves_busy sampleDatabase ["a"] "a" (by decide)
    (by decide) sampleDatabase
    { delible_configs := [], indelible_configs := ["a"] } rfl

/-! ## Claim theorems for the query construction (C4). -/

/-- The query-building loop started at index i produces the per-index
subqueries joined by UNION ALL, one params entry config_<index> per config
id, and one param_types key per config id. -/
theorem get_all_tasks_in_progress_go_cons (i : Nat) (c : String)
    (rest : List String) :
    get_all_tasks_in_progress_go i (c :: rest) =
      ((get_tasks_in_progress_query c i).1 ++
         (if rest.isEmpty then "" else "\nUNION ALL\n") ++
         (get_all_tasks_in_progress_go (i + 1) rest).1,
       (get_tasks_in_progress_query c i).2.1 ::
         (get_all_tasks_in_progress_go (i + 1) rest).2.1,
       (get_tasks_in_progress_query c i).2.2 ::
         (get_all_tasks_in_progress_go (i + 1) rest).2.2) := by
  rcases hq : get_tasks_in_progress_query c i with ⟨q, p, pt⟩
  rcases hr : get_all_tasks_in_progress_go (i + 1) rest with ⟨qs, ps, pts⟩
  simp only [get_all_tasks_in_progress_go, hq, hr]

theorem get_all_tasks_in_progress_go_eq (l : List String) :
    ∀ i : Nat,
    get_all_tasks_in_progress_go i l =
      (union_all_join ((l.enumFrom i).map fun p =>
         (get_tasks_in_progress_query p.2 p.1).1),
       (l.enumFrom i).map fun p => ("config_" ++ toString p.1, p.2),
       (l.enumFrom i).map fun p => "config_" ++ toString p.1) := by
  induction l with
  | nil => intro i; rfl
  | cons c rest ih =>
    intro i
    rw [get_all_tasks_in_progress_go_cons i c rest]
    cases rest with
    | nil =>
      simp only [ih (i + 1), List.isEmpty_nil, if_true, List.enumFrom,
        List.map_nil, List.map_cons, union_all_join, String.append_empty,
        get_tasks_in_progress_query]
    | cons c2 rest2 =>
      simp only [ih (i + 1), List.isEmpty_cons, Bool.false_eq_true, if_false,
        List.enumFrom, List.map_cons, union_all_join,
        get_tasks_in_progress_query]

/-- The partition computed inside the transaction, expressed as the two
filters of the config id list by the in-progress count over the database. -/
theorem get_delible_indelible_counts (db : Database) (cfgs : List String) :
    get_delible_indelible_configs cfgs (run_tasks_in_progress_query db cfgs) =
      (cfgs.filter fun c => decide (tasksInProgressCount db c = 0),
       cfgs.filter fun c => decide (0 < tasksInProgressCount db c)) := by
  have hnn : ∀ c : String, 0 ≤ tasksInProgressCount db c :=
    fun c => Int.natCast_nonneg _
  have hD : (cfgs.filter fun c => decide (tasksInProgressCount db c ≤ 0)) =
      cfgs.filter fun c => decide (tasksInProgressCount db c = 0) := by
    apply List.filter_congr'
    intro a _
    have h0 := hnn a
    rw [decide_eq_decide]
    omega
  rw [run_tasks_in_progress_query, get_delible_indelible_map, hD]

/-- C4: for a non-empty config id list, the built query is the per-config
COUNT subqueries joined by UNION ALL, with exactly one string parameter
config_<i> per config id (in order), and the transaction issues a single
multi-key delete whose key set is exactly the zero-count subset (no delete
at all when that subset is empty). -/
theorem get_all_tasks_in_progress_union_all (config_id_list : List String)
    (db : Database) (hne : config_id_list ≠ []) :
    (get_all_tasks_in_progress config_id_list).1 =
      union_all_join (config_id_list.enum.map fun p =>
        (get_tasks_in_progress_query p.2 p.1).1) ∧
    (get_all_tasks_in_progress config_id_list).2.1 =
      config_id_list.enum.map (fun p => ("config_" ++ toString p.1, p.2)) ∧
    (get_all_tasks_in_progress config_id_list).2.2 =
      config_id_list.enum.map (fun p => "config_" ++ toString p.1) ∧
    (delete_job_configs_transaction db config_id_list).2 =
      (if (config_id_list.filter fun c =>
            decide (tasksInProgressCount db c = 0)).isEmpty then []
       else [Mutation.delete JOB_CONFIGS_TABLE
         ((config_id_list.filter fun c =>
             decide (tasksInProgressCount db c = 0)).map
            fun config_id => [config_id])]) := by
  have hgo := get_all_tasks_in_progress_go_eq config_id_list 0
  refine ⟨?_, ?_, ?_, ?_⟩
  · rw [get_all_tasks_in_progress, hgo]; rfl
  · rw [get_all_tasks_in_progress, hgo]; rfl
  · rw [get_all_tasks_in_progress, hgo]; rfl
  · simp only [delete_job_configs_transaction, get_delible_indelible_counts]

/-- Witness for C4 at a concrete input. -/
theorem get_all_tasks_in_progress_union_all_witness :
    (get_all_tasks_in_progress ["a", "b"]).1 =
      union_all_join ((["a", "b"] : List String).enum.map fun p =>
        (get_tasks_in_progress_query p.2 p.1).1) :=
  (get_all_tasks_in_progress_union_all ["a", "b"] sampleDatabase
    (by decide)).1

/-! ## Claim theorems for the autoupdate script (C5, C6, C8). -/

/-- C5: agent_release_version returns None, propagating no exception, when
the fetch raises IOError, when the body is not valid JSON (ValueError), or
when the metadata or AgentVersion key is absent (KeyError); it returns the
version value exactly when both keys are present. -/
theorem agent_release_version_error_handling (fetch : String → FetchOutcome)
    (url : String) :
    (fetch url = FetchOutcome.ioError →
      agent_release_version fetch url = Except.ok none) ∧
    (fetch url = FetchOutcome.badJson →
      agent_release_version fetch url = Except.ok none) ∧
    (∀ v, fetch url = FetchOutcome.json v →
      getitem v "metadata" = Except.error PyErr.keyError →
      agent_release_version fetch url = Except.ok none) ∧
    (∀ v m, fetch url = FetchOutcome.json v →
      getitem v "metadata" = Except.ok m →
      getitem m "AgentVersion" = Except.error PyErr.keyError →
      agent_release_version fetch url = Except.ok none) ∧
    (∀ v m version, fetch url = FetchOutcome.json v →
      getitem v "metadata" = Except.ok m →
      getitem m "AgentVersion" = Except.ok version →
      agent_release_version fetch url = Except.ok (some version)) ∧
    (∀ version, agent_release_version fetch url = Except.ok (some version) →
      ∃ v m, fetch url = FetchOutcome.json v ∧
        getitem v "metadata" = Except.ok m ∧
        getitem m "AgentVersion" = Except.ok version) := by
  refine ⟨?_, ?_, ?_, ?_, ?_, ?_⟩
  · intro h; simp [agent_release_version, h]
  · intro h; simp [agent_release_version, h]
  · intro v hv hm; simp [agent_release_version, hv, hm]
  · intro v m hv hm hver; simp [agent_release_version, hv, hm, hver]
  · intro v m version hv hm hver; simp [agent_release_version, hv, hm, hver]
  · intro version h
    cases hf : fetch url with
    | ioError => simp [agent_release_version, hf] at h
    | badJson => simp [agent_release_version, hf] at h
    | json v =>
      simp only [agent_release_version, hf] at h
      cases hm : getitem v "metadata" with
      | error e =>
        simp only [hm] at h
        cases e <;> simp_all
      | ok m =>
        simp only [hm] at h
        cases hver : getitem m "AgentVersion" with
        | error e =>
          simp only [hver] at h
          cases e <;> simp_all
        | ok version2 =>
          simp only [hver] at h
          simp only [Except.ok.injEq, Option.some.injEq] at h
          exact ⟨v, m, rfl, hm, by rw [hver, h]⟩

/-- Witness for C5 at a concrete input: a failing fetch yields None. -/
theorem agent_release_version_error_handling_witness :
    agent_release_version (fun _ => FetchOutcome.ioError) "http://u" =
      Except.ok none :=
  (agent_release_version_error_handling (fun _ => FetchOutcome.ioError)
    "http://u").1 rfl

/-- C6: is_process_alive is False for a None process handle and for a
process whose poll() returns an exit code, and is True exactly when the
handle exists and poll() returns None. -/
theorem is_process_alive_spec :
    is_process_alive none = false ∧
    (∀ p : AgentProcess, p.pollResult ≠ none →
      is_process_alive (some p) = false) ∧
    (∀ process : Option AgentProcess,
      is_process_alive process = true ↔
        ∃ p, process = some p ∧ p.pollResult = none) := by
  refine ⟨rfl, ?_, ?_⟩
  · intro p h
    cases hp : p.pollResult with
    | none => exact absurd hp h
    | some code => simp [is_process_alive, hp]
  · intro process
    cases process with
    | none => simp [is_process_alive]
    | some p =>
      cases hp : p.pollResult with
      | none => simp [is_process_alive, hp]
      | some code => simp [is_process_alive, hp]

/-- Witness for C6 at a concrete input: a terminated process is not alive. -/
theorem is_process_alive_spec_witness :
    is_process_alive (some { pid := 7, pollResult := some 0 }) = false :=
  is_process_alive_spec.2.1 { pid := 7, pollResult := some 0 } (by decide)

/-- C8: the autoupdate script falls back to the stable URL: update_url
returns the stable URL when there is no process or when the agent-source
file cannot be read; and when the process is not alive after the version
check, check_and_update_agent_if_needed re-reads the version from the stable
URL and downloads and starts the agent from the stable URL. -/
theorem autoupdate_stable_fallback :
    (∀ env : AutoupdateEnv, update_url env none = env.stable_agent_url) ∧
    (∀ (env : AutoupdateEnv) (p : AgentProcess),
      env.readFile (env.log_dir ++ "agent_source_" ++ toString p.pid ++
        ".txt") = none →
      update_url env (some p) = env.stable_agent_url) ∧
    (∀ (env : AutoupdateEnv) (process : Option AgentProcess)
       (local_version : String) (args : List String)
       (latest : Option PyObject) (process1 : Option AgentProcess)
       (latest1 : Option PyObject) (latest2 : Option PyObject),
      agent_release_version env.fetch (update_url env process) =
        Except.ok latest →
      version_check_update env process local_version args
        (update_url env process) latest = (process1, latest1) →
      is_process_alive process1 = false →
      agent_release_version env.fetch env.stable_agent_url =
        Except.ok latest2 →
      check_and_update_agent_if_needed env process local_version args =
        (download_and_start_agent env process1 env.stable_agent_url args,
         latest2)) := by
  refine ⟨?_, ?_, ?_⟩
  · intro env; rfl
  · intro env p h
    simp [update_url, h]
  · intro env process local_version args latest process1 latest1 latest2
      h1 h2 h3 h4
    simp [check_and_update_agent_if_needed, check_and_update_try, h1, h2,
      h3, h4]

/-- Witness for C8 at a concrete input: with no running process and every IO
primitive failing, the update uses the stable URL. -/
theorem autoupdate_stable_fallback_witness :
    update_url sampleAutoupdateEnv none =
      sampleAutoupdateEnv.stable_agent_url ∧
    check_and_update_agent_if_needed sampleAutoupdateEnv none "v0" [] =
      (download_and_start_agent sampleAutoupdateEnv none
        sampleAutoupdateEnv.stable_agent_url [], none) :=
  ⟨autoupdate_stable_fallback.1 sampleAutoupdateEnv,
   autoupdate_stable_fallback.2.2 sampleAutoupdateEnv none "v0" [] none none
     (some (PyObject.str "v0")) none rfl rfl rfl rfl⟩

/-! ## Claim theorem for the GaxError decorator (C7). -/

/-- C7: the decorator returns the wrapped result unchanged when no error is
raised, maps PERMISSION_DENIED, NOT_FOUND, UNAUTHENTICATED and
ALREADY_EXISTS to Forbidden, NotFound, Unauthorized and Conflict, and
re-raises the original GaxError for every other status code. -/
theorem handle_common_gax_errors_mapping {α : Type} (ids : SpannerIds)
    (call : Except StatusCode α) :
    (∀ v, call = Except.ok v →
      handle_common_gax_errors ids call = Except.ok v) ∧
    (call = Except.error StatusCode.permission_denied →
      handle_common_gax_errors ids call =
        Except.error (CloudError.forbidden (forbidden_message ids))) ∧
    (call = Except.error StatusCode.not_found →
      handle_common_gax_errors ids call =
        Except.error (CloudError.notFound (not_found_message ids))) ∧
    (call = Except.error StatusCode.unauthenticated →
      handle_common_gax_errors ids call =
        Except.error (CloudError.unauthorized unauthorized_message)) ∧
    (call = Except.error StatusCode.already_exists →
      handle_common_gax_errors ids call =
        Except.error (CloudError.conflict conflict_message)) ∧
    (∀ code, call = Except.error code →
      code ≠ StatusCode.permission_denied → code ≠ StatusCode.not_found →
      code ≠ StatusCode.unauthenticated → code ≠ StatusCode.already_exists →
      handle_common_gax_errors ids call =
        Except.error (CloudError.gaxError code)) := by
  refine ⟨?_, ?_, ?_, ?_, ?_, ?_⟩
  · intro v h; rw [h]; rfl
  · intro h; rw [h]; rfl
  · intro h; rw [h]; rfl
  · intro h; rw [h]; rfl
  · intro h; rw [h]; rfl
  · intro code h h1 h2 h3 h4
    rw [h]
    simp [handle_common_gax_errors, h1, h2, h3, h4]

/-- Witness for C7 at a concrete input: INTERNAL is re-raised unchanged. -/
theorem handle_common_gax_errors_mapping_witness :
    handle_common_gax_errors
      { project_id := "p", instance_id := "i", database_id := "d" }
      (Except.error StatusCode.internal : Except StatusCode Nat) =
      Except.error (CloudError.gaxError StatusCode.internal) :=
  (handle_common_gax_errors_mapping
    { project_id := "p", instance_id := "i", database_id := "d" }
    (Except.error StatusCode.internal : Except StatusCode Nat)).2.2.2.2.2
    StatusCode.internal rfl (by decide) (by decide) (by decide) (by decide)

/-! ## Claim theorem for job run creation (C10). -/

/-- C10: the Counters object inserted by create_job_run sets the overall and
list counters to the initial task count for totals and unqueued, zero for
everything else including every copy counter, so the aggregate equalities
hold, and the inserted job run Status is IN_PROGRESS. -/
theorem create_job_run_counters_invariants (initial_total_tasks : Int)
    (config_id run_id : String) (creation_time : Int) :
    (create_job_run_row config_id run_id creation_time
      initial_total_tasks).status = JOB_STATUS_IN_PROGRESS ∧
    (create_job_run_counters initial_total_tasks).totalTasks =
      initial_total_tasks ∧
    (create_job_run_counters initial_total_tasks).tasksUnqueued =
      initial_total_tasks ∧
    (create_job_run_counters initial_total_tasks).tasksCompleted = 0 ∧
    (create_job_run_counters initial_total_tasks).tasksFailed = 0 ∧
    (create_job_run_counters initial_total_tasks).tasksQueued = 0 ∧
    (create_job_run_counters initial_total_tasks).totalTasksList =
      initial_total_tasks ∧
    (create_job_run_counters initial_total_tasks).tasksUnqueuedList =
      initial_total_tasks ∧
    (create_job_run_counters initial_total_tasks).tasksCompletedList = 0 ∧
    (create_job_run_counters initial_total_tasks).tasksFailedList = 0 ∧
    (create_job_run_counters initial_total_tasks).tasksQueuedList = 0 ∧
    (create_job_run_counters initial_total_tasks).totalTasksCopy = 0 ∧
    (create_job_run_counters initial_total_tasks).tasksCompletedCopy = 0 ∧
    (create_job_run_counters initial_total_tasks).tasksFailedCopy = 0 ∧
    (create_job_run_counters initial_total_tasks).tasksQueuedCopy = 0 ∧
    (create_job_run_counters initial_total_tasks).tasksUnqueuedCopy = 0 ∧
    (create_job_run_counters initial_total_tasks).totalTasks =
      (create_job_run_counters initial_total_tasks).tasksCompleted +
      (create_job_run_counters initial_total_tasks).tasksFailed +
      (create_job_run_counters initial_total_tasks).tasksQueued +
      (create_job_run_counters initial_total_tasks).tasksUnqueued ∧
    (create_job_run_counters initial_total_tasks).totalTasks =
      (create_job_run_counters initial_total_tasks).totalTasksList +
      (create_job_run_counters initial_total_tasks).totalTasksCopy := by
  refine ⟨rfl, rfl, rfl, rfl, rfl, rfl, rfl, rfl, rfl, rfl, rfl, rfl, rfl,
    rfl, rfl, rfl, ?_, ?_⟩
  · show initial_total_tasks = 0 + 0 + 0 + initial_total_tasks
    omega
  · show initial_total_tasks = initial_total_tasks + 0
    omega
